import Mathlib

set_option linter.unusedVariables false

namespace Cplus

/-! Shallow embedding of the scenario-analysis pipeline of
`src/cplus_plugin/tasks.py` (class `ScenarioAnalysisTask`) and of
`src/cplus_plugin/lib/financials.py`.  Python floats are modelled as
rationals; the external raster services invoked through `processing.run`
are an oracle carried in `Env`, and every launched raster operation is
recorded in the task state. -/

/-- Python floats are modelled as rationals. -/
abbrev Value := ℚ

/-- A `QgsRectangle`: constructor argument order in the source is
`(xMin, yMin, xMax, yMax)`. -/
structure Rect where
  xMin : Value
  yMin : Value
  xMax : Value
  yMax : Value
deriving DecidableEq

/-- `ScenarioAnalysisTask.align_extent` (tasks.py lines 261-303): snaps the
target extent to the reference raster pixel grid.  The source wraps the
arithmetic in try/except and falls back to the original extent on any
failure; the only failure expressible in the embedding is the
`ZeroDivisionError` raised by Python float division when a pixel
resolution is zero, hence the guard. -/
def align_extent (refRect : Rect) (x_res y_res : Value) (target : Rect) : Rect :=
  if x_res = 0 ∨ y_res = 0 then target
  else
    { xMin := refRect.xMin + x_res * ((Int.floor ((target.xMin - refRect.xMin) / x_res) : ℤ) : Value)
      yMin := refRect.yMin + y_res * ((Int.floor ((target.yMin - refRect.yMin) / y_res) : ℤ) : Value)
      xMax := refRect.xMin + x_res * ((Int.ceil ((target.xMax - refRect.xMin) / x_res) : ℤ) : Value)
      yMax := refRect.yMax - y_res * ((Int.floor ((refRect.yMax - target.yMax) / y_res) : ℤ) : Value) }

/-- `compute_discount_value` (financials.py lines 25-45):
`(revenue - cost) / ((1 + discount / 100.0) ** (year - 1))`. -/
def compute_discount_value (revenue cost : Value) (year : ℤ) (discount : Value) : Value :=
  (revenue - cost) / ((1 + discount / 100) ^ (year - 1))

/-- Python exceptions that the embedded pipeline can observe. -/
inductive PyError where
  | exception (msg : String)
  | attributeError (msg : String)
  | typeError (msg : String)
  | unboundLocalError (name : String)
  | keyError (key : String)
deriving DecidableEq

/-- An `NcsPathway`: `path` is the raster reference mutated in place as the
pathway advances through the stages, `carbon_paths` the ordered list of
carbon raster references. -/
structure Pathway where
  name : String
  path : String
  carbon_paths : List String
deriving DecidableEq

/-- A priority-weighting-layer record (a Python dict with at least `uuid`,
`name` and `path` keys).  Entries that are `None` in the source lists are
skipped by every consumer and are not representable here. -/
structure PriorityLayerRef where
  uuid : String
  name : String
  path : String
deriving DecidableEq

/-- An `ImplementationModel` (activity): either a direct `path` or a list of
pathways; `priority_layers` is `none` when the attribute is Python `None`. -/
structure ImplementationModel where
  name : String
  uuid : String
  path : Option String
  pathways : List Pathway
  priority_layers : Option (List PriorityLayerRef)
  style_pixel_value : Int
deriving DecidableEq

/-- Abstract syntax of the expressions handed to `qgis:rastercalculator`.
The source assembles the concrete string; the embedding keeps the parse
tree (with Python arithmetic precedence) so that the §6 service contract
— deterministic pixel-wise evaluation — can be stated. -/
inductive Expr where
  | num (v : Value)
  | ref (layerName : String)
  | add (a b : Expr)
  | sub (a b : Expr)
  | mul (a b : Expr)
  | div (a b : Expr)
deriving DecidableEq

/-- Pixel-wise value of an expression under a valuation of layer references
(band 1 of each aliased layer, §6 raster-algebra contract). -/
def Expr.eval (v : String → Value) : Expr → Value
  | num c => c
  | ref n => v n
  | add a b => a.eval v + b.eval v
  | sub a b => a.eval v - b.eval v
  | mul a b => a.eval v * b.eval v
  | div a b => a.eval v / b.eval v

/-- `" + ".join(basenames)`: left-associated sum of the listed terms.  The
source never joins an empty list on a path that reaches the calculator. -/
def joinAdd : List Expr → Expr
  | [] => Expr.num 0
  | e :: es => es.foldl Expr.add e

/-- One raster operation submitted to the external processing framework via
`processing.run`, with the parameters the source passes. -/
inductive RasterOp where
  | rasterCalculator (expression : Expr) (layers : List String) (extent : String) (output : String)
  | cellStatistics (inputs : List String) (extent : Option String) (outputNodata : Value)
      (reference : Option String) (output : String)
  | highestPosition (sources : List String) (extent : String) (outputNodata : Value)
      (reference : Option String) (output : String)
  | translate (input : String)
  | warpNodata (input : String) (nodata : Value) (output : String)
deriving DecidableEq

/-- The mutable attributes of `ScenarioAnalysisTask` that the claims are
about, plus the trace of launched raster operations.
`analysis_weighted_ims` is `none` when the attribute holds Python `None`
(`run` rebinds it to whatever `run_models_weighting` returned). -/
structure TaskState where
  processing_cancelled : Bool
  error : Option PyError
  models : List ImplementationModel
  analysis_weighted_ims : Option (List ImplementationModel)
  ops : List RasterOp
deriving DecidableEq

/-- Records a `processing.run` submission in the trace. -/
def launch (s : TaskState) (op : RasterOp) : TaskState :=
  { s with ops := s.ops ++ [op] }

/-- Modelled from the spec: `QgsTask.cancel` and the surrounding host
plumbing (outside `src/`) make the run-wide cancellation flag polled by
every stage become set — "records the exception, and triggers the same
cancellation path so no further stage starts" (§4.8 state machine, §3
cancellation flag). -/
def cancelTask (s : TaskState) : TaskState :=
  { s with processing_cancelled := true }

/-- The common stage exception handler: `self.error = e; self.cancel()`. -/
def handle_stage_exception (s : TaskState) (e : PyError) : TaskState :=
  cancelTask { s with error := some e }

/-- Python `model.path is ""`.  CPython interns the empty-string literal, so
the identity test behaves as equality with `""` (the spec flags the
identity comparison as a latent inconsistency; the embedding uses the
interned behaviour). -/
def pyIsEmptyStrLit (x : Option String) : Bool :=
  x == some ""

/-- `model.path is None or model.path is ""`. -/
def pathIsMissing (x : Option String) : Bool :=
  (x == none) || pyIsEmptyStrLit x

/-- `model.path is not None and model.path is not ""`. -/
def pathIsPresent (x : Option String) : Bool :=
  !(x == none) && !(pyIsEmptyStrLit x)

/-- Python `x is []`: identity comparison against a freshly allocated list
literal, always `False` whatever `x` is. -/
def py_is_list_literal {α : Type} (x : α) : Bool :=
  false

/-- Python `any(priority_layers_groups)` over a dict: truthiness of its
keys, i.e. whether some key is a non-empty string. -/
def py_any_keys (keys : List String) : Bool :=
  keys.any (fun k => !k.isEmpty)

/-- The guard shared by `run_pathways_analysis` (line 400),
`snap_analysis_data` (line 557) and `run_pathways_normalization`
(line 808): `not model.pathways and (model.path is None or model.path is "")`. -/
def no_layer_guard (m : ImplementationModel) : Bool :=
  m.pathways.isEmpty && pathIsMissing m.path

/-- The corresponding guard in `run_models_analysis` (line 968), which uses
`and` between the two path tests:
`not model.pathways and (model.path is None and model.path is "")`. -/
def models_analysis_no_layer_guard (m : ImplementationModel) : Bool :=
  m.pathways.isEmpty && ((m.path == none) && pyIsEmptyStrLit m.path)

/-- Terminal status of a run. -/
inductive RunStatus where
  | Succeeded
  | Cancelled
  | Failed
deriving DecidableEq

/-- Modelled from the spec: the controller's terminal state (§4.8 state
machine; the `QgsTask` status plumbing lives outside `src/`).  Any
recorded exception means `Failed`; cancellation without a recorded
exception means `Cancelled`; otherwise `Succeeded`. -/
def report_status (s : TaskState) : RunStatus :=
  if s.error.isSome then RunStatus.Failed
  else if s.processing_cancelled then RunStatus.Cancelled
  else RunStatus.Succeeded

/-- The external collaborators of the pipeline (spec §1 out-of-scope, §6
interfaces): the configuration store (`settings_manager`), the filesystem,
raster metadata readers (`QgsRasterLayer` and its data provider) and the
processing framework.  Each field is deterministic for one run. -/
structure Env where
  /-- `Settings.PATHWAY_SUITABILITY_INDEX` (default 0). -/
  suitability_index : Value
  /-- `Settings.CARBON_COEFFICIENT` (default 0.0). -/
  carbon_coefficient : Value
  /-- `Settings.SNAPPING_ENABLED` (default False). -/
  snapping_enabled : Bool
  /-- `Settings.SNAP_LAYER` (default ""). -/
  snap_reference_layer : String
  /-- `Settings.RESCALE_VALUES` (default False). -/
  rescale_values : Bool
  /-- `Settings.RESAMPLING_METHOD` (default 0). -/
  resampling_method : Nat
  /-- The keys of the `analysis_priority_layers_groups` dict handed to the
  task constructor. -/
  priority_group_keys : List String
  /-- `self.scenario_directory` (timestamped, created at the top of `run`). -/
  scenario_directory : String
  /-- `f"{SCENARIO_OUTPUT_FILE_NAME}_{str(self.scenario.uuid)[:4]}"`. -/
  scenario_output_file : String
  /-- `self.analysis_extent.bbox` reassembled as a rectangle
  (`QgsRectangle(bbox[0], bbox[2], bbox[1], bbox[3])`). -/
  analysis_bbox : Rect
  /-- `os.path.exists` / `Path(...).exists()`. -/
  pathExists : String → Bool
  /-- `Path(...).is_file()`. -/
  isFile : String → Bool
  /-- `Path(...).stem`. -/
  stem : String → String
  /-- `Path(...).parent` as a string. -/
  parentDir : String → String
  /-- `utils.clean_filename` composed with the `replace(" ", "_")` done at
  each call site (outside `src/`; only its output name matters here). -/
  clean_filename : String → String
  /-- `layer.dataProvider().sourceNoDataValue(1)`. -/
  sourceNoDataValue : String → Value
  /-- `provider.bandStatistics(1)` as `(minimumValue, maximumValue)`. -/
  bandStats : String → Value × Value
  /-- `raster_layer.extent()`. -/
  layerRect : String → Rect
  /-- `raster_layer.rasterUnitsPerPixelX()`. -/
  layerXRes : String → Value
  /-- `raster_layer.rasterUnitsPerPixelY()`. -/
  layerYRes : String → Value
  /-- `raster_layer.crs().authid()`. -/
  layerCrsAuthId : String → String
  /-- `processing.run` on one raster operation: the `OUTPUT` entry of the
  returned result dict, or the exception the call raised. -/
  procRun : RasterOp → Except PyError String
  /-- Modelled from the spec: `utils.align_rasters` (this repository's
  `utils.py` is not under `src/`).  §4.2: resampling a layer onto the
  reference grid either yields the resampled layer path or fails, in which
  case the caller is meant to keep the original path; the failure outcome
  is `none` for the first component of the returned pair.  Arguments are
  `(input_path, reference_path, extent, directory, rescale_values,
  resampling_method)`. -/
  alignRasters : String → String → String → String → Bool → Nat → Option String
  /-- The f-string
  `f"{extent.xMinimum()},{extent.xMaximum()},{extent.yMinimum()},{extent.yMaximum()} [{crs.authid()}]"`
  used at tasks.py lines 145-149 and 1460-1464.  The decimal rendering of
  the float bounds is presentation detail left to the host; the rendered
  string is never empty since the template contains literal commas and a
  bracketed CRS identifier. -/
  formatExtent : Rect → String → String
  /-- `settings_manager.get_priority_layer(uuid)`. -/
  getPriorityLayer : String → Option PriorityLayerRef
  /-- Resolution of the priority-weighting layers of one activity inside
  `run_models_weighting` (tasks.py lines 1238-1282): the settings manager
  (outside `src/`) yields, per model uuid and in source order, the
  `(group value, pwl path)` pairs for every settings layer of the model
  whose path exists, joined with every matching global priority layer
  group.  The `coefficient > 0` filter of line 1277 stays in the
  embedding. -/
  pwlTerms : String → List (Value × String)

/-- The pathway/path collection loop shared verbatim by
`run_pathways_analysis` (lines 399-419) and `run_pathways_normalization`
(lines 807-828), and — without the `models_paths` accumulator, which the
caller then ignores — by `snap_analysis_data` (lines 556-573): dedup
pathways across models, collect direct model paths, abort (`none`) on the
`no_layer_guard`. -/
def collect_pathways_loop :
    List ImplementationModel → List Pathway → List String →
      Option (List Pathway × List String)
  | [], pathways, models_paths => some (pathways, models_paths)
  | m :: rest, pathways, models_paths =>
    if no_layer_guard m then none
    else
      let pathways := m.pathways.foldl
        (fun acc p => if acc.contains p then acc else acc ++ [p]) pathways
      let models_paths :=
        if pathIsPresent m.path then models_paths ++ [m.path.getD ""] else models_paths
      collect_pathways_loop rest pathways models_paths

/-- In-place mutation `pathway.path = new_path`: every alias of the pathway
object inside the shared model list observes the update.  Object identity
is modelled as structural equality. -/
def update_pathway_path (s : TaskState) (old : Pathway) (new_path : String) : TaskState :=
  { s with models := s.models.map (fun m =>
      { m with pathways := m.pathways.map (fun q =>
          if q == old then { q with path := new_path } else q) }) }

/-- In-place mutation `pathway.carbon_paths = snapped_carbon_paths`. -/
def update_pathway_carbon (s : TaskState) (old : Pathway) (new_carbon : List String) : TaskState :=
  { s with models := s.models.map (fun m =>
      { m with pathways := m.pathways.map (fun q =>
          if q == old then { q with carbon_paths := new_carbon } else q) }) }

/-- In-place mutation `model.path = ...` on the shared model list. -/
def update_model_path (s : TaskState) (old : ImplementationModel) (new_path : String) : TaskState :=
  { s with models := s.models.map (fun m =>
      if m == old then { m with path := some new_path } else m) }

/-- In-place mutation `model.priority_layers = priority_layers`. -/
def update_model_priority_layers (s : TaskState) (old : ImplementationModel)
    (pls : Option (List PriorityLayerRef)) : TaskState :=
  { s with models := s.models.map (fun m =>
      if m == old then { m with priority_layers := pls } else m) }

/-- In-place mutation `model.path = ...` on a weighted clone held in
`self.analysis_weighted_ims`. -/
def update_weighted_path (s : TaskState) (old : ImplementationModel) (new_path : String) : TaskState :=
  { s with analysis_weighted_ims := s.analysis_weighted_ims.map (fun ms => ms.map (fun m =>
      if m == old then { m with path := some new_path } else m)) }

/-- Output file `os.path.join(directory, f"{file_name}_{uuid4[:4]}.tif")`.
The four-character random uuid suffix is nondeterministic and omitted. -/
def output_file_for (directory file_name : String) : String :=
  directory ++ "/" ++ file_name ++ ".tif"

/-- Base term of a pathway combination (tasks.py lines 443-446):
`f'{suitability_index} * "{path_basename}@1"'` when the index is positive,
else the bare layer reference. -/
def base_term (suitability_index : Value) (path_stem : String) : Expr :=
  if 0 < suitability_index then Expr.mul (Expr.num suitability_index) (Expr.ref path_stem)
  else Expr.ref path_stem

/-- The carbon-layer collection loop (tasks.py lines 463-468): for every
carbon path that exists on disk, append the path to `layers` and its stem
reference to `carbon_names`.  Returns `(appended layers, carbon_names)`. -/
def collect_carbon (env : Env) (carbon_paths : List String) : List String × List String :=
  carbon_paths.foldl
    (fun acc cp =>
      if env.pathExists cp then (acc.1 ++ [cp], acc.2 ++ [env.stem cp]) else acc)
    ([], [])

/-- The carbon terms appended to `basenames` (tasks.py lines 470-480): a
single coefficient-scaled reference when exactly one carbon layer was
collected, or the coefficient times the average — note the divisor is
`len(pathway.carbon_paths)`, the full list, not the number of layers that
were actually collected. -/
def carbon_terms (carbon_coefficient : Value) (carbon_names : List String)
    (carbon_paths_count : ℕ) : List Expr :=
  (if carbon_names.length = 1 ∧ 0 < carbon_coefficient then
    [Expr.mul (Expr.num carbon_coefficient) (joinAdd (carbon_names.map Expr.ref))]
  else []) ++
  (if 1 < carbon_names.length ∧ 0 < carbon_coefficient then
    [Expr.mul (Expr.num carbon_coefficient)
      (Expr.div (joinAdd (carbon_names.map Expr.ref)) (Expr.num (carbon_paths_count : Value)))]
  else [])

/-- The full `basenames` list built for one pathway with at least one
carbon path (tasks.py lines 436-481). -/
def pathway_basenames (env : Env) (p : Pathway) : List Expr :=
  base_term env.suitability_index (env.stem p.path)
    :: carbon_terms env.carbon_coefficient (collect_carbon env p.carbon_paths).2
        p.carbon_paths.length

/-- The normalization expression shared by `run_pathways_normalization`
(lines 885-895) and `run_models_normalization` (lines 1129-1140):
`index * ("layer@1" - min) / (max - min)` — Python precedence puts the
subexpression `index * (value - min)` over the denominator — or the pure
min-max scaling when the index is not positive. -/
def normalization_expression (normalization_index : Value) (layer_name : String)
    (min_value max_value : Value) : Expr :=
  if 0 < normalization_index then
    Expr.div
      (Expr.mul (Expr.num normalization_index)
        (Expr.sub (Expr.ref layer_name) (Expr.num min_value)))
      (Expr.sub (Expr.num max_value) (Expr.num min_value))
  else
    Expr.div (Expr.sub (Expr.ref layer_name) (Expr.num min_value))
      (Expr.sub (Expr.num max_value) (Expr.num min_value))

/-- The selected-pathway search at the top of `run` (tasks.py lines
116-126): the first pathway of the first model that has one. -/
def first_pathway : List ImplementationModel → Option Pathway
  | [] => none
  | m :: rest =>
    match m.pathways with
    | [] => first_pathway rest
    | p :: _ => some p

/-- `ScenarioAnalysisTask.replace_nodata` (tasks.py lines 305-370): a
`gdal:translate` into a temporary output followed by a
`gdal:warpreproject` whose `NODATA` parameter is the literal `-9999`; the
`nodata_value` argument received by the method is never used.  Either
`processing.run` call may raise, and the method has no handler, so errors
propagate to the caller.  On success the method returns
`outputs is not None`, which is `True`. -/
def replace_nodata (env : Env) (s : TaskState) (layer_path output_path : String)
    (nodata_value : Value) : Except PyError Bool × TaskState :=
  let op1 := RasterOp.translate layer_path
  let s := launch s op1
  match env.procRun op1 with
  | Except.error e => (Except.error e, s)
  | Except.ok translate_output =>
    let op2 := RasterOp.warpNodata translate_output (-9999) output_path
    let s := launch s op2
    match env.procRun op2 with
    | Except.error e => (Except.error e, s)
    | Except.ok _ => (Except.ok true, s)

/-- `ScenarioAnalysisTask.snap_layer` (tasks.py lines 717-774): run
`align_rasters`; when it yields an input result path, derive
`{stem}_final.tif` next to it and re-write the no-data value.  When the
resampling failed (`input_result_path is None`) the final
`return output_path` reads a local variable that was never assigned and
raises `UnboundLocalError`. -/
def snap_layer (env : Env) (s : TaskState) (input_path reference_path extent directory : String)
    (rescale_values : Bool) (resampling_method : ℕ) (nodata_value : Value) :
    Except PyError String × TaskState :=
  match env.alignRasters input_path reference_path extent directory rescale_values
      resampling_method with
  | some input_result_path =>
    let output_path :=
      env.parentDir input_result_path ++ "/" ++ env.stem input_result_path ++ "_final.tif"
    match replace_nodata env s input_result_path output_path nodata_value with
    | (Except.error e, s) => (Except.error e, s)
    | (Except.ok _, s) => (Except.ok output_path, s)
  | none => (Except.error (PyError.unboundLocalError "output_path"), s)

/-- The carbon-layer snapping loop of `snap_analysis_data` (tasks.py lines
614-635): snap each carbon path, keeping the original path when the snap
output is falsy (the source's dead fallback, since `snap_layer` either
returns a non-empty path or raises).  Raised exceptions propagate. -/
def snap_carbon_loop (env : Env) (extent : String) :
    TaskState → List String → List String → Except PyError (List String) × TaskState
  | s, acc, [] => (Except.ok acc, s)
  | s, acc, carbon_path :: rest =>
    let nodata_value_carbon := env.sourceNoDataValue carbon_path
    match snap_layer env s carbon_path env.snap_reference_layer extent
        (env.scenario_directory ++ "/carbon_layers") env.rescale_values
        env.resampling_method nodata_value_carbon with
    | (Except.error e, s) => (Except.error e, s)
    | (Except.ok carbon_output_path, s) =>
      let chosen := if carbon_output_path ≠ "" then carbon_output_path else carbon_path
      snap_carbon_loop env extent s (acc ++ [chosen]) rest

/-- The per-pathway snapping loop of `snap_analysis_data` (tasks.py lines
591-653).  `Except.ok false` is the early `return False` on cancellation;
`Except.ok true` means the loop ran to completion; `Except.error` is a
raised exception. -/
def snap_pathways_loop (env : Env) (extent : String) :
    TaskState → List Pathway → Except PyError Bool × TaskState
  | s, [] => (Except.ok true, s)
  | s, p :: rest =>
    let nodata_value := env.sourceNoDataValue p.path
    if s.processing_cancelled then (Except.ok false, s)
    else
      let step : Except PyError Pathway × TaskState :=
        if p.carbon_paths.length > 0 then
          match snap_carbon_loop env extent s [] p.carbon_paths with
          | (Except.error e, s) => (Except.error e, s)
          | (Except.ok snapped_carbon_paths, s) =>
            let p' : Pathway := { p with carbon_paths := snapped_carbon_paths }
            (Except.ok p', update_pathway_carbon s p snapped_carbon_paths)
        else (Except.ok p, s)
      match step with
      | (Except.error e, s) => (Except.error e, s)
      | (Except.ok p', s) =>
        match snap_layer env s p'.path env.snap_reference_layer extent
            (env.scenario_directory ++ "/pathways") env.rescale_values
            env.resampling_method nodata_value with
        | (Except.error e, s) => (Except.error e, s)
        | (Except.ok output_path, s) =>
          let s := if output_path ≠ "" then update_pathway_path s p' output_path else s
          snap_pathways_loop env extent s rest

/-- The priority-layer snapping loop of `snap_analysis_data` (tasks.py
lines 668-705): settings records that cannot be resolved are dropped from
the rebuilt list (`continue` without appending), layers whose file is
missing are kept unsnapped, otherwise the snapped path is written back
into the record. -/
def snap_priority_loop (env : Env) (extent : String) :
    TaskState → List PriorityLayerRef → List PriorityLayerRef →
      Except PyError (List PriorityLayerRef) × TaskState
  | s, acc, [] => (Except.ok acc, s)
  | s, acc, priority_layer :: rest =>
    match env.getPriorityLayer priority_layer.uuid with
    | none => snap_priority_loop env extent s acc rest
    | some priority_layer_settings =>
      let priority_layer_path := priority_layer_settings.path
      if !(env.pathExists priority_layer_path) then
        snap_priority_loop env extent s (acc ++ [priority_layer]) rest
      else
        let nodata_value_priority := env.sourceNoDataValue priority_layer_path
        match snap_layer env s priority_layer_path env.snap_reference_layer extent
            (env.scenario_directory ++ "/priority_layers") env.rescale_values
            env.resampling_method nodata_value_priority with
        | (Except.error e, s) => (Except.error e, s)
        | (Except.ok priority_output_path, s) =>
          let pl' :=
            if priority_output_path ≠ "" then
              { priority_layer with path := priority_output_path }
            else priority_layer
          snap_priority_loop env extent s (acc ++ [pl']) rest

/-- The per-model priority-layer pass of `snap_analysis_data` (tasks.py
lines 655-707). -/
def snap_models_priority_loop (env : Env) (extent : String) :
    TaskState → List ImplementationModel → Except PyError Unit × TaskState
  | s, [] => (Except.ok (), s)
  | s, m :: rest =>
    match m.priority_layers with
    | none => snap_models_priority_loop env extent s rest
    | some pls =>
      if pls.length > 0 then
        match snap_priority_loop env extent s [] pls with
        | (Except.error e, s) => (Except.error e, s)
        | (Except.ok new_pls, s) =>
          let s := update_model_priority_layers s m (some new_pls)
          snap_models_priority_loop env extent s rest
      else snap_models_priority_loop env extent s rest

/-- `ScenarioAnalysisTask.snap_analysis_data` (tasks.py lines 528-715):
optional best-effort snapping of pathway, carbon and priority layers.  Any
exception raised inside the try block is recorded
(`self.error = e; self.cancel()`) and the stage returns `False`. -/
def snap_analysis_data (env : Env) (extent : String) (s : TaskState) : Bool × TaskState :=
  if s.processing_cancelled then (false, s)
  else
    match collect_pathways_loop s.models [] [] with
    | none => (false, s)
    | some (pathways, _) =>
      let afterPathways : Except PyError Bool × TaskState :=
        if pathways.length > 0 then snap_pathways_loop env extent s pathways
        else (Except.ok true, s)
      match afterPathways with
      | (Except.error e, s) => (false, handle_stage_exception s e)
      | (Except.ok false, s) => (false, s)
      | (Except.ok true, s) =>
        match snap_models_priority_loop env extent s s.models with
        | (Except.error e, s) => (false, handle_stage_exception s e)
        | (Except.ok _, s) => (true, s)

/-- The per-model loop of `run_models_analysis` (tasks.py lines 960-1028):
collect the direct path plus all pathway rasters and submit a
`native:cellstatistics` sum (`IGNORE_NODATA=True`,
`OUTPUT_NODATA_VALUE=-9999`, first layer as reference). -/
def run_models_analysis_loop (env : Env) (extent : String) :
    TaskState → List ImplementationModel → Bool × TaskState
  | s, [] => (true, s)
  | s, m :: rest =>
    if models_analysis_no_layer_guard m then (false, s)
    else
      let file_name := env.clean_filename m.name
      let output_file :=
        output_file_for (env.scenario_directory ++ "/implementation_models") file_name
      let layers :=
        (if pathIsPresent m.path then [m.path.getD ""] else []) ++ m.pathways.map (·.path)
      let op := RasterOp.cellStatistics layers (some extent) (-9999) layers.head? output_file
      if s.processing_cancelled then (false, s)
      else
        let s := launch s op
        match env.procRun op with
        | Except.error e => (false, handle_stage_exception s e)
        | Except.ok out => run_models_analysis_loop env extent (update_model_path s m out) rest

/-- `ScenarioAnalysisTask.run_models_analysis` (tasks.py lines 937-1036). -/
def run_models_analysis (env : Env) (extent : String) (s : TaskState) : Bool × TaskState :=
  if s.processing_cancelled then (false, s)
  else run_models_analysis_loop env extent s s.models

/-- The per-pathway loop of `run_pathways_normalization` (tasks.py lines
847-927): read the band statistics, raise when `max < min` (caught by the
stage handler, which records the error, cancels and returns `False`),
otherwise submit the normalization expression and overwrite the pathway
path with the calculator output. -/
def run_pathways_normalization_loop (env : Env) (extent : String) :
    TaskState → List Pathway → Option Bool × TaskState
  | s, [] => (some true, s)
  | s, p :: rest =>
    let file_name := env.clean_filename p.name
    let output_file :=
      output_file_for (env.scenario_directory ++ "/normalized_pathways") file_name
    let stats := env.bandStats p.path
    let min_value := stats.1
    let max_value := stats.2
    let layer_name := env.stem p.path
    if max_value < min_value then
      (some false, handle_stage_exception s
        (PyError.exception "Pathway contains invalid minimum and maxmum band values"))
    else
      let normalization_index := env.carbon_coefficient + env.suitability_index
      let expression := normalization_expression normalization_index layer_name min_value max_value
      if s.processing_cancelled then (some false, s)
      else
        let op := RasterOp.rasterCalculator expression [p.path] extent output_file
        let s := launch s op
        match env.procRun op with
        | Except.error e => (some false, handle_stage_exception s e)
        | Except.ok out =>
          run_pathways_normalization_loop env extent (update_pathway_path s p out) rest

/-- `ScenarioAnalysisTask.run_pathways_normalization` (tasks.py lines
776-935).  When there are no pathways but some direct model paths it runs
the next stage itself and falls off the end with a bare `return`
(Python `None`). -/
def run_pathways_normalization (env : Env) (extent : String) (s : TaskState) :
    Option Bool × TaskState :=
  if s.processing_cancelled then (some false, s)
  else
    match collect_pathways_loop s.models [] [] with
    | none => (some false, s)
    | some (pathways, models_paths) =>
      if pathways.isEmpty && models_paths.length > 0 then
        let r := run_models_analysis env extent s
        (none, r.2)
      else run_pathways_normalization_loop env extent s pathways

/-- The per-pathway loop of `run_pathways_analysis` (tasks.py lines
435-520).  A pathway without carbon paths is skipped (`continue`); when
both coefficients are non-positive the stage runs the normalization stage
itself and exits with a bare `return`; a raised calculator call is caught
by the stage handler (`self.error = e; self.cancel()`) after which the
method still ends at its final `return True`. -/
def run_pathways_analysis_loop (env : Env) (extent : String) :
    TaskState → List Pathway → Option Bool × TaskState
  | s, [] => (some true, s)
  | s, p :: rest =>
    if p.carbon_paths.length ≤ 0 then run_pathways_analysis_loop env extent s rest
    else
      let file_name := env.clean_filename p.name
      let output_file :=
        output_file_for (env.scenario_directory ++ "/pathways_carbon_layers") file_name
      let collected := collect_carbon env p.carbon_paths
      let layers := p.path :: collected.1
      let basenames := pathway_basenames env p
      let expression := joinAdd basenames
      if env.carbon_coefficient ≤ 0 ∧ env.suitability_index ≤ 0 then
        let r := run_pathways_normalization env extent s
        (none, r.2)
      else if s.processing_cancelled then (some false, s)
      else
        let op := RasterOp.rasterCalculator expression layers extent output_file
        let s := launch s op
        match env.procRun op with
        | Except.error e => (some true, handle_stage_exception s e)
        | Except.ok _ =>
          run_pathways_analysis_loop env extent (update_pathway_path s p output_file) rest

/-- `ScenarioAnalysisTask.run_pathways_analysis` (tasks.py lines 372-526):
combine every unique pathway with its carbon layers.  When there are no
pathways but some direct model paths it runs the normalization stage
itself and exits with a bare `return`. -/
def run_pathways_analysis (env : Env) (extent : String) (s : TaskState) :
    Option Bool × TaskState :=
  if s.processing_cancelled then (some false, s)
  else
    match collect_pathways_loop s.models [] [] with
    | none => (some false, s)
    | some (pathways, models_paths) =>
      if pathways.isEmpty && models_paths.length > 0 then
        let r := run_pathways_normalization env extent s
        (none, r.2)
      else run_pathways_analysis_loop env extent s pathways

/-- The per-model loop of `run_models_normalization` (tasks.py lines
1066-1167).  Unlike `run_pathways_normalization` the source performs no
`max < min` validation here: the band statistics are only logged and the
normalization expression is built from them unconditionally. -/
def run_models_normalization_loop (env : Env) (extent : String) :
    TaskState → List ImplementationModel → Bool × TaskState
  | s, [] => (true, s)
  | s, m :: rest =>
    if pathIsMissing m.path then (false, s)
    else
      let model_path := m.path.getD ""
      let file_name := env.clean_filename m.name
      let output_file := output_file_for (env.scenario_directory ++ "/normalized_ims") file_name
      let stats := env.bandStats model_path
      let min_value := stats.1
      let max_value := stats.2
      let layer_name := env.stem model_path
      let normalization_index := env.carbon_coefficient + env.suitability_index
      let expression := normalization_expression normalization_index layer_name min_value max_value
      if s.processing_cancelled then (false, s)
      else
        let op := RasterOp.rasterCalculator expression [model_path] extent output_file
        let s := launch s op
        match env.procRun op with
        | Except.error e => (false, handle_stage_exception s e)
        | Except.ok out =>
          run_models_normalization_loop env extent (update_model_path s m out) rest

/-- `ScenarioAnalysisTask.run_models_normalization` (tasks.py lines
1038-1175). -/
def run_models_normalization (env : Env) (extent : String) (s : TaskState) : Bool × TaskState :=
  if s.processing_cancelled then (false, s)
  else run_models_normalization_loop env extent s s.models

/-- Behaviour of `run_models_cleaning` when, as in the global-skip branch
of `run_models_weighting` (line 1228, `self.run_models_cleaning(extent)`),
the extent string is bound to the `models` parameter.  Iterating a Python
`str` yields one-character strings, so the first attribute access
`model.path` raises `AttributeError`, which the stage handler records
before cancelling; an empty string iterates zero times and the stage
returns `True`. -/
def run_models_cleaning_on_string (env : Env) (s : TaskState) (extent_as_models : String) :
    Bool × TaskState :=
  if s.processing_cancelled then (false, s)
  else if extent_as_models.isEmpty then (true, s)
  else
    (false, handle_stage_exception s
      (PyError.attributeError "str object has no attribute path"))

/-- The per-model loop of `run_models_cleaning` (tasks.py lines 1353-1410):
a single-layer `native:cellstatistics` sum with `OUTPUT_NODATA_VALUE=0`,
the deliberate idiom turning zero pixels into no-data. -/
def run_models_cleaning_loop (env : Env) (extent : Option String) :
    TaskState → List ImplementationModel → Bool × TaskState
  | s, [] => (true, s)
  | s, m :: rest =>
    if pathIsMissing m.path then (false, s)
    else
      let model_path := m.path.getD ""
      let layers := [model_path]
      let file_name := env.clean_filename m.name
      let output_file :=
        env.scenario_directory ++ "/weighted_ims" ++ "/" ++ file_name ++ "_cleaned.tif"
      let op := RasterOp.cellStatistics layers extent 0 layers.head? output_file
      if s.processing_cancelled then (false, s)
      else
        let s := launch s op
        match env.procRun op with
        | Except.error e => (false, handle_stage_exception s e)
        | Except.ok out => run_models_cleaning_loop env extent (update_weighted_path s m out) rest

/-- `ScenarioAnalysisTask.run_models_cleaning` (tasks.py lines 1338-1418)
as invoked from `run` on `self.analysis_weighted_ims` (the `models`
argument aliases that attribute).  When the attribute holds Python `None`
(weighting failed), the `for` raises `TypeError` inside the try block,
which the stage handler records. -/
def run_models_cleaning (env : Env) (extent : Option String) (s : TaskState) : Bool × TaskState :=
  if s.processing_cancelled then (false, s)
  else
    match s.analysis_weighted_ims with
    | none =>
      (false, handle_stage_exception s (PyError.typeError "NoneType object is not iterable"))
    | some ms => run_models_cleaning_loop env extent s ms

/-- The per-model loop of `run_models_weighting` (tasks.py lines
1199-1328), acting on a fresh clone of each model
(`clone_implementation_model`, outside `src/`, modelled as the identical
record since the embedding is immutable).  The outer return value mirrors
the Python one: `none` is the bare `return` of the global-skip branch
(line 1229); `some (none, false)` is `return None, False` from the
exception handler; `some (some ms, b)` is an ordinary `return ms, b`. -/
def run_models_weighting_loop (env : Env) (extent : String) :
    TaskState → List ImplementationModel → List ImplementationModel →
      Option (Option (List ImplementationModel) × Bool) × TaskState
  | s, weighted, [] => (some (some weighted, true), s)
  | s, weighted, original_model :: rest =>
    let m := original_model
    if pathIsMissing m.path then (some (some [], false), s)
    else
      let model_path := m.path.getD ""
      let basenames0 := [Expr.ref (env.stem model_path)]
      let layers0 := [model_path]
      if !(py_any_keys env.priority_group_keys) then
        let r := run_models_cleaning_on_string env s extent
        (none, r.2)
      else if (m.priority_layers == none) || py_is_list_literal m.priority_layers then
        run_models_weighting_loop env extent s weighted rest
      else
        let resolved := env.pwlTerms m.uuid
        let built := resolved.foldl
          (fun (acc : List String × List Expr) t =>
            if 0 < t.1 then
              ((if acc.1.contains t.2 then acc.1 else acc.1 ++ [t.2]),
               acc.2 ++ [Expr.mul (Expr.num t.1) (Expr.ref (env.stem t.2))])
            else acc)
          (layers0, basenames0)
        let layers := built.1
        let basenames := built.2
        if py_is_list_literal basenames then (some (some [], true), s)
        else
          let file_name := env.clean_filename m.name
          let output_file := output_file_for (env.scenario_directory ++ "/weighted_ims") file_name
          let expression := joinAdd basenames
          if s.processing_cancelled then (some (some [], false), s)
          else
            let op := RasterOp.rasterCalculator expression layers extent output_file
            let s := launch s op
            match env.procRun op with
            | Except.error e => (some (none, false), handle_stage_exception s e)
            | Except.ok out =>
              run_models_weighting_loop env extent s
                (weighted ++ [{ m with path := some out }]) rest

/-- `ScenarioAnalysisTask.run_models_weighting` (tasks.py lines 1177-1336). -/
def run_models_weighting (env : Env) (extent : String) (s : TaskState) :
    Option (Option (List ImplementationModel) × Bool) × TaskState :=
  if s.processing_cancelled then (some (some [], false), s)
  else run_models_weighting_loop env extent s [] s.models

/-- Python dict assignment `d[k] = v`: overwrite in place or append,
preserving insertion order. -/
def assoc_set (l : List (String × String)) (k v : String) : List (String × String) :=
  if l.any (fun kv => kv.1 == k) then
    l.map (fun kv => if kv.1 == k then (k, v) else kv)
  else l ++ [(k, v)]

/-- Python dict lookup `d[k]`. -/
def assoc_get (l : List (String × String)) (k : String) : Option String :=
  (l.find? (fun kv => kv.1 == k)).map (·.2)

/-- The `layers` dict of `run_highest_position_analysis` (tasks.py lines
1443-1455): model name mapped to its raster source — the direct path when
present, else successively each pathway path (the last one wins). -/
def build_layers_map (ms : List ImplementationModel) : List (String × String) :=
  ms.foldl
    (fun acc m =>
      if pathIsPresent m.path then assoc_set acc m.name (m.path.getD "")
      else m.pathways.foldl (fun acc2 p => assoc_set acc2 m.name p.path) acc)
    []

/-- Stable insertion used by `sort_by_rank`: the element goes before the
first entry with a strictly larger key, so earlier list elements with an
equal key stay in front (Python `sorted` is stable). -/
def insert_by_rank (m : ImplementationModel) :
    List ImplementationModel → List ImplementationModel
  | [] => [m]
  | x :: xs =>
    if x.style_pixel_value < m.style_pixel_value then x :: insert_by_rank m xs
    else m :: x :: xs

/-- `sorted(self.analysis_weighted_ims, key=lambda m: m.style_pixel_value)`
(tasks.py lines 1475-1478), a stable sort. -/
def sort_by_rank (ms : List ImplementationModel) : List ImplementationModel :=
  ms.foldr insert_by_rank []

/-- The source-collection loop (tasks.py lines 1485-1487): for each model
name in rank order that also occurs in `models_names`, look the raster
source up in the layers dict; a name absent from the dict raises
`KeyError`. -/
def collect_sources (layers : List (String × String)) (models_names : List String) :
    List ImplementationModel → Except PyError (List String)
  | [] => Except.ok []
  | m :: rest =>
    if models_names.contains m.name then
      match assoc_get layers m.name with
      | some src => (collect_sources layers models_names rest).map (src :: ·)
      | none => Except.error (PyError.keyError m.name)
    else collect_sources layers models_names rest

/-- `ScenarioAnalysisTask.run_highest_position_analysis` (tasks.py lines
1420-1529): rank reassignment over the weighted models, then a
`native:highestpositioninrasterstack` call
(`IGNORE_NODATA=True`, `OUTPUT_NODATA_VALUE=-9999`, first layers-dict
entry as reference).  The bare `return` on cancellation is Python `None`.
The rank mutation `model.style_pixel_value = index + 1` only feeds the
local ordering in this terminal stage and is kept local here. -/
def run_highest_position_analysis (env : Env) (s : TaskState) : Option Bool × TaskState :=
  if s.processing_cancelled then (none, s)
  else
    match s.analysis_weighted_ims with
    | none =>
      (some false, handle_stage_exception s (PyError.typeError "NoneType object is not iterable"))
    | some weighted =>
      let layers := build_layers_map weighted
      let dest_crs :=
        match layers.head? with
        | some kv => env.layerCrsAuthId kv.2
        | none => "EPSG:4326"
      let extent_string := env.formatExtent env.analysis_bbox dest_crs
      let output_file :=
        env.scenario_directory ++ "/" ++ env.scenario_output_file ++ ".tif"
      let models_names := weighted.map (·.name)
      let all_models := (sort_by_rank weighted).enum.map
        (fun im => { im.2 with style_pixel_value := (im.1 : Int) + 1 })
      match collect_sources layers models_names all_models with
      | Except.error e => (some false, handle_stage_exception s e)
      | Except.ok sources =>
        let op := RasterOp.highestPosition sources extent_string (-9999)
          (layers.head?.map (·.2)) output_file
        if s.processing_cancelled then (some false, s)
        else
          let s := launch s op
          match env.procRun op with
          | Except.error e => (some false, handle_stage_exception s e)
          | Except.ok _ => (some true, s)

/-- `ScenarioAnalysisTask.run` (tasks.py lines 104-224): directory and
extent setup, optional snapping, then the fixed stage sequence.  Stage
return values are ignored except the tuple-unpacked weighting result:
`weighted_models, result = self.run_models_weighting(...)` raises
`TypeError` when the stage returned `None`, and a missing selected
pathway raises `AttributeError` at `selected_pathway.path`.  Both
propagate out of `run`; otherwise the method ends with `return True`. -/
def run (env : Env) (s : TaskState) : Except PyError Bool × TaskState :=
  match first_pathway s.models with
  | none => (Except.error (PyError.attributeError "NoneType object has no attribute path"), s)
  | some selected_pathway =>
    let dest_crs :=
      if selected_pathway.path ≠ "" then env.layerCrsAuthId selected_pathway.path
      else "EPSG:4326"
    let processing_extent := env.analysis_bbox
    let snapped_extent := align_extent (env.layerRect selected_pathway.path)
      (env.layerXRes selected_pathway.path) (env.layerYRes selected_pathway.path)
      processing_extent
    let extent_string := env.formatExtent snapped_extent dest_crs
    let s :=
      if env.snapping_enabled && env.pathExists env.snap_reference_layer
          && env.isFile env.snap_reference_layer then
        (snap_analysis_data env extent_string s).2
      else s
    let s := (run_pathways_analysis env extent_string s).2
    let s := (run_pathways_normalization env extent_string s).2
    let s := (run_models_analysis env extent_string s).2
    let s := (run_models_normalization env extent_string s).2
    match run_models_weighting env extent_string s with
    | (none, s) =>
      (Except.error (PyError.typeError "cannot unpack non-iterable NoneType object"), s)
    | (some (weighted_models, _result), s) =>
      let s := { s with analysis_weighted_ims := weighted_models }
      let s := (run_models_cleaning env (some extent_string) s).2
      let s := (run_highest_position_analysis env s).2
      (Except.ok true, s)

/-- A concrete, fully benign environment for the closed evaluation
theorems: every file exists, every service call succeeds, statistics are
`(0, 10)`, no priority groups are configured, snapping is disabled. -/
def defaultEnv : Env where
  suitability_index := 0
  carbon_coefficient := 0
  snapping_enabled := false
  snap_reference_layer := ""
  rescale_values := false
  resampling_method := 0
  priority_group_keys := []
  scenario_directory := "scenario"
  scenario_output_file := "scenario_output"
  analysis_bbox := ⟨0, 0, 1, 1⟩
  pathExists := fun _ => true
  isFile := fun _ => true
  stem := fun p => p
  parentDir := fun _ => "dir"
  clean_filename := fun n => n
  sourceNoDataValue := fun _ => 0
  bandStats := fun _ => (0, 10)
  layerRect := fun _ => ⟨0, 0, 10, 10⟩
  layerXRes := fun _ => 1
  layerYRes := fun _ => 1
  layerCrsAuthId := fun _ => "EPSG:4326"
  formatExtent := fun _ _ => "0,1,0,1 [EPSG:4326]"
  procRun := fun _ => Except.ok "out.tif"
  alignRasters := fun _ _ _ _ _ _ => some "aligned.tif"
  getPriorityLayer := fun _ => none
  pwlTerms := fun _ => []

/-- A fresh task state over the given model list, mirroring `__init__`. -/
def initState (models : List ImplementationModel) : TaskState where
  processing_cancelled := false
  error := none
  models := models
  analysis_weighted_ims := some []
  ops := []

/-- A pathway with no carbon layers. -/
def pw0 : Pathway := ⟨"Pathway One", "pathway.tif", []⟩

/-- A model with one pathway and no direct path. -/
def model0 : ImplementationModel := ⟨"Model A", "uuid-a", none, [pw0], none, 1⟩

/-- A model with neither pathways nor a direct path (`path` is `None`):
the C3 failing input. -/
def modelNoLayers : ImplementationModel := ⟨"Model A", "uuid-a", none, [], some [], 1⟩

/-- A model with a direct path and no pathways, used by the normalization
claims. -/
def modelDirect : ImplementationModel :=
  ⟨"Model B", "uuid-b", some "model_b.tif", [], some [], 1⟩

/-- A model with both a direct path and one pathway: the C6 failing input
lives in a run over this model with no priority groups configured. -/
def modelBoth : ImplementationModel :=
  ⟨"Model A", "uuid-a", some "model_a.tif", [pw0], some [], 1⟩

/-- An already-cancelled state over `model0`. -/
def cancelledState : TaskState :=
  { initState [model0] with processing_cancelled := true }

/-- A pathway with one carbon layer. -/
def pwCarbon : Pathway := ⟨"Pathway C", "pathway_c.tif", ["carbon.tif"]⟩

/-- A model whose single pathway carries a carbon layer. -/
def modelCarbon : ImplementationModel := ⟨"Model C", "uuid-c", none, [pwCarbon], none, 1⟩

/-- An environment whose raster service fails every call. -/
def envFailingCalc : Env :=
  { defaultEnv with
    carbon_coefficient := 1
    procRun := fun _ => Except.error (PyError.exception "calc failed") }

/-! Helper lemmas: every stage polls the cancellation flag on entry and
returns a falsy value without touching the state. -/

theorem run_pathways_analysis_of_cancelled (env : Env) (extent : String) (s : TaskState)
    (h : s.processing_cancelled = true) :
    run_pathways_analysis env extent s = (some false, s) := by
  simp [run_pathways_analysis, h]

theorem run_pathways_normalization_of_cancelled (env : Env) (extent : String) (s : TaskState)
    (h : s.processing_cancelled = true) :
    run_pathways_normalization env extent s = (some false, s) := by
  simp [run_pathways_normalization, h]

theorem run_models_analysis_of_cancelled (env : Env) (extent : String) (s : TaskState)
    (h : s.processing_cancelled = true) :
    run_models_analysis env extent s = (false, s) := by
  simp [run_models_analysis, h]

theorem run_models_normalization_of_cancelled (env : Env) (extent : String) (s : TaskState)
    (h : s.processing_cancelled = true) :
    run_models_normalization env extent s = (false, s) := by
  simp [run_models_normalization, h]

theorem run_models_weighting_of_cancelled (env : Env) (extent : String) (s : TaskState)
    (h : s.processing_cancelled = true) :
    run_models_weighting env extent s = (some (some [], false), s) := by
  simp [run_models_weighting, h]

theorem run_models_cleaning_of_cancelled (env : Env) (extent : Option String) (s : TaskState)
    (h : s.processing_cancelled = true) :
    run_models_cleaning env extent s = (false, s) := by
  simp [run_models_cleaning, h]

theorem run_highest_position_analysis_of_cancelled (env : Env) (s : TaskState)
    (h : s.processing_cancelled = true) :
    run_highest_position_analysis env s = (none, s) := by
  simp [run_highest_position_analysis, h]

theorem snap_analysis_data_of_cancelled (env : Env) (extent : String) (s : TaskState)
    (h : s.processing_cancelled = true) :
    snap_analysis_data env extent s = (false, s) := by
  simp [snap_analysis_data, h]

theorem run_of_cancelled (env : Env) (s : TaskState) (sp : Pathway)
    (h : s.processing_cancelled = true) (hsp : first_pathway s.models = some sp) :
    run env s = (Except.ok true, { s with analysis_weighted_ims := some [] }) := by
  unfold run
  rw [hsp]
  simp only [ite_self, h,
    run_pathways_analysis_of_cancelled,
    run_pathways_normalization_of_cancelled,
    run_models_analysis_of_cancelled,
    run_models_normalization_of_cancelled,
    run_models_weighting_of_cancelled,
    run_models_cleaning_of_cancelled,
    run_highest_position_analysis_of_cancelled,
    snap_analysis_data_of_cancelled]

/-- The shared collection loop on a single model that has exactly one
pathway: it yields that pathway and the model's direct path when present. -/
theorem collect_pathways_loop_single (m : ImplementationModel) (p : Pathway)
    (hpw : m.pathways = [p]) :
    collect_pathways_loop [m] [] []
      = some ([p], if pathIsPresent m.path then [m.path.getD ""] else []) := by
  simp [collect_pathways_loop, no_layer_guard, hpw]

/-- C2: for every run and stage, if the cancellation flag is set before the
stage starts then that stage and every later one return a falsy value and
leave the state — in particular the trace of launched raster operations —
untouched, and the run reports `Cancelled`. -/
theorem cancellation_blocks_all_later_stages (env : Env) (extent : String)
    (s : TaskState) (sp : Pathway)
    (h : s.processing_cancelled = true) (herr : s.error = none)
    (hsp : first_pathway s.models = some sp) :
    run_pathways_analysis env extent s = (some false, s)
    ∧ run_pathways_normalization env extent s = (some false, s)
    ∧ run_models_analysis env extent s = (false, s)
    ∧ run_models_normalization env extent s = (false, s)
    ∧ run_models_weighting env extent s = (some (some [], false), s)
    ∧ run_models_cleaning env (some extent) s = (false, s)
    ∧ run_highest_position_analysis env s = (none, s)
    ∧ snap_analysis_data env extent s = (false, s)
    ∧ run env s = (Except.ok true, { s with analysis_weighted_ims := some [] })
    ∧ (run env s).2.ops = s.ops
    ∧ report_status (run env s).2 = RunStatus.Cancelled := by
  refine ⟨run_pathways_analysis_of_cancelled env extent s h,
    run_pathways_normalization_of_cancelled env extent s h,
    run_models_analysis_of_cancelled env extent s h,
    run_models_normalization_of_cancelled env extent s h,
    run_models_weighting_of_cancelled env extent s h,
    run_models_cleaning_of_cancelled env (some extent) s h,
    run_highest_position_analysis_of_cancelled env s h,
    snap_analysis_data_of_cancelled env extent s h,
    run_of_cancelled env s sp h hsp, ?_, ?_⟩
  · rw [run_of_cancelled env s sp h hsp]
  · rw [run_of_cancelled env s sp h hsp]
    simp [report_status, herr, h]

/-- Witness for C2 at a concrete cancelled state. -/
theorem cancellation_blocks_all_later_stages_witness :
    run_pathways_analysis defaultEnv "e" cancelledState = (some false, cancelledState)
    ∧ run_pathways_normalization defaultEnv "e" cancelledState = (some false, cancelledState)
    ∧ run_models_analysis defaultEnv "e" cancelledState = (false, cancelledState)
    ∧ run_models_normalization defaultEnv "e" cancelledState = (false, cancelledState)
    ∧ run_models_weighting defaultEnv "e" cancelledState = (some (some [], false), cancelledState)
    ∧ run_models_cleaning defaultEnv (some "e") cancelledState = (false, cancelledState)
    ∧ run_highest_position_analysis defaultEnv cancelledState = (none, cancelledState)
    ∧ snap_analysis_data defaultEnv "e" cancelledState = (false, cancelledState)
    ∧ run defaultEnv cancelledState
        = (Except.ok true, { cancelledState with analysis_weighted_ims := some [] })
    ∧ (run defaultEnv cancelledState).2.ops = cancelledState.ops
    ∧ report_status (run defaultEnv cancelledState).2 = RunStatus.Cancelled :=
  cancellation_blocks_all_later_stages defaultEnv "e" cancelledState pw0 rfl rfl rfl

/-- C9: for positive pixel resolutions, every bound of the aligned extent
is an integer multiple of the resolution away from the reference raster's
corresponding origin coordinate, and the aligned extent covers the
original target extent. -/
theorem align_extent_snaps_and_covers (ref : Rect) (x_res y_res : Value) (target : Rect)
    (hx : 0 < x_res) (hy : 0 < y_res) :
    (∃ a b c d : ℤ,
      (align_extent ref x_res y_res target).xMin = ref.xMin + x_res * (a : Value)
      ∧ (align_extent ref x_res y_res target).xMax = ref.xMin + x_res * (b : Value)
      ∧ (align_extent ref x_res y_res target).yMin = ref.yMin + y_res * (c : Value)
      ∧ (align_extent ref x_res y_res target).yMax = ref.yMax - y_res * (d : Value))
    ∧ (align_extent ref x_res y_res target).xMin ≤ target.xMin
    ∧ target.xMax ≤ (align_extent ref x_res y_res target).xMax
    ∧ (align_extent ref x_res y_res target).yMin ≤ target.yMin
    ∧ target.yMax ≤ (align_extent ref x_res y_res target).yMax := by
  have hx0 : x_res ≠ 0 := ne_of_gt hx
  have hy0 : y_res ≠ 0 := ne_of_gt hy
  have hguard : ¬(x_res = 0 ∨ y_res = 0) := by
    push_neg
    exact ⟨hx0, hy0⟩
  unfold align_extent
  rw [if_neg hguard]
  refine ⟨⟨_, _, _, _, rfl, rfl, rfl, rfl⟩, ?_, ?_, ?_, ?_⟩
  · have h1 : ((Int.floor ((target.xMin - ref.xMin) / x_res) : ℤ) : Value)
        ≤ (target.xMin - ref.xMin) / x_res := Int.floor_le _
    have h2 := mul_le_mul_of_nonneg_left h1 (le_of_lt hx)
    have h3 : x_res * ((target.xMin - ref.xMin) / x_res) = target.xMin - ref.xMin := by
      field_simp
    rw [h3] at h2
    simp only []
    linarith
  · have h1 : (target.xMax - ref.xMin) / x_res
        ≤ ((Int.ceil ((target.xMax - ref.xMin) / x_res) : ℤ) : Value) := Int.le_ceil _
    have h2 := mul_le_mul_of_nonneg_left h1 (le_of_lt hx)
    have h3 : x_res * ((target.xMax - ref.xMin) / x_res) = target.xMax - ref.xMin := by
      field_simp
    rw [h3] at h2
    simp only []
    linarith
  · have h1 : ((Int.floor ((target.yMin - ref.yMin) / y_res) : ℤ) : Value)
        ≤ (target.yMin - ref.yMin) / y_res := Int.floor_le _
    have h2 := mul_le_mul_of_nonneg_left h1 (le_of_lt hy)
    have h3 : y_res * ((target.yMin - ref.yMin) / y_res) = target.yMin - ref.yMin := by
      field_simp
    rw [h3] at h2
    simp only []
    linarith
  · have h1 : ((Int.floor ((ref.yMax - target.yMax) / y_res) : ℤ) : Value)
        ≤ (ref.yMax - target.yMax) / y_res := Int.floor_le _
    have h2 := mul_le_mul_of_nonneg_left h1 (le_of_lt hy)
    have h3 : y_res * ((ref.yMax - target.yMax) / y_res) = ref.yMax - target.yMax := by
      field_simp
    rw [h3] at h2
    simp only []
    linarith

/-- Witness for C9 on a reference grid of origin (0,0), resolution 1. -/
theorem align_extent_snaps_and_covers_witness :
    (align_extent ⟨0, 0, 10, 10⟩ 1 1 ⟨3/10, 1/5, 97/10, 49/5⟩).xMin ≤ 3/10
    ∧ (97 : Value)/10 ≤ (align_extent ⟨0, 0, 10, 10⟩ 1 1 ⟨3/10, 1/5, 97/10, 49/5⟩).xMax :=
  ⟨(align_extent_snaps_and_covers ⟨0, 0, 10, 10⟩ 1 1 ⟨3/10, 1/5, 97/10, 49/5⟩
      (by norm_num) (by norm_num)).2.1,
   (align_extent_snaps_and_covers ⟨0, 0, 10, 10⟩ 1 1 ⟨3/10, 1/5, 97/10, 49/5⟩
      (by norm_num) (by norm_num)).2.2.1⟩

/-- C10: `compute_discount_value` is exactly
`(revenue - cost) / (1 + discount/100)^(year-1)`; in particular at
`year = 1` (whenever the denominator base is meaningful,
`discount ≠ -100`) the discounted value is `revenue - cost` whatever the
discount rate. -/
theorem compute_discount_value_formula :
    (∀ (revenue cost : Value) (year : ℤ) (discount : Value),
      compute_discount_value revenue cost year discount
        = (revenue - cost) / ((1 + discount / 100) ^ (year - 1)))
    ∧ (∀ revenue cost discount : Value, discount ≠ -100 →
      compute_discount_value revenue cost 1 discount = revenue - cost) := by
  refine ⟨fun _ _ _ _ => rfl, fun revenue cost discount hd => ?_⟩
  simp [compute_discount_value]

/-- Witness for C10 at revenue 5, cost 2, discount 7%. -/
theorem compute_discount_value_formula_witness :
    (7 : Value) ≠ -100 ∧ compute_discount_value 5 2 1 7 = 5 - 2 :=
  ⟨by norm_num, compute_discount_value_formula.2 5 2 7 (by norm_num)⟩

/-- C3 (code bug): for an activity with no pathways and `path = None`, the
abort guard of `run_models_analysis` — written with `and` between
`model.path is None` and `model.path is ""` where the sibling stages use
`or` — is unsatisfiable and never fires, while the sibling guard does;
the stage therefore does not abort with its descriptive error but
launches the sum statistic over an empty layer list and, when the
external call returns, simply continues with no recorded error. -/
theorem models_analysis_guard_never_fires :
    models_analysis_no_layer_guard modelNoLayers = false
    ∧ no_layer_guard modelNoLayers = true
    ∧ (run_models_analysis defaultEnv "ext" (initState [modelNoLayers])).1 = true
    ∧ (run_models_analysis defaultEnv "ext" (initState [modelNoLayers])).2.error = none
    ∧ (run_models_analysis defaultEnv "ext" (initState [modelNoLayers])).2.processing_cancelled
        = false
    ∧ (run_models_analysis defaultEnv "ext" (initState [modelNoLayers])).2.ops
        = [RasterOp.cellStatistics [] (some "ext") (-9999) none
            "scenario/implementation_models/Model A.tif"] :=
  ⟨rfl, rfl, rfl, rfl, rfl, rfl⟩

/-- C4 (code bug): `replace_nodata` never reads its `nodata_value`
argument — its result is literally independent of it — and the no-data
value it writes in the warp step is the constant `-9999`, not the
original value read from the input layer (here `0`). -/
theorem replace_nodata_ignores_original_value :
    (∀ (env : Env) (s : TaskState) (layer_path output_path : String) (a b : Value),
      replace_nodata env s layer_path output_path a
        = replace_nodata env s layer_path output_path b)
    ∧ (replace_nodata defaultEnv (initState []) "input.tif" "snapped_final.tif" 0).2.ops
        = [RasterOp.translate "input.tif",
           RasterOp.warpNodata "out.tif" (-9999) "snapped_final.tif"]
    ∧ (0 : Value) ≠ -9999 :=
  ⟨fun _ _ _ _ _ _ => rfl, rfl, by norm_num⟩

/-- C6 (code bug): in a run with no priority-layer groups configured, the
global-skip branch of `run_models_weighting` calls
`run_models_cleaning(extent)` — binding the extent string to the `models`
parameter, whose first character raises `AttributeError`, recorded and
cancelling the run — and then returns Python `None`, which breaks the
tuple unpacking in `run` with a `TypeError`; the run fails instead of
proceeding to cleaning on the unweighted activities. -/
theorem weighting_global_skip_crashes_run :
    (run_models_weighting defaultEnv "0,1,0,1 [EPSG:4326]" (initState [modelBoth])).1 = none
    ∧ (run_models_weighting defaultEnv "0,1,0,1 [EPSG:4326]" (initState [modelBoth])).2.error
        = some (PyError.attributeError "str object has no attribute path")
    ∧ (run_models_weighting defaultEnv "0,1,0,1 [EPSG:4326]"
        (initState [modelBoth])).2.processing_cancelled = true
    ∧ (run defaultEnv (initState [modelBoth])).1
        = Except.error (PyError.typeError "cannot unpack non-iterable NoneType object")
    ∧ (run defaultEnv (initState [modelBoth])).2.error
        = some (PyError.attributeError "str object has no attribute path")
    ∧ report_status (run defaultEnv (initState [modelBoth])).2 = RunStatus.Failed :=
  ⟨rfl, rfl, rfl, rfl, rfl, rfl⟩

/-- C7 (code bug): when resampling of a layer fails (`align_rasters`
yields no input result path), `snap_layer` raises `UnboundLocalError` on
its final `return output_path`; the snapping stage's handler records the
error and cancels, so the run aborts instead of keeping the original
path and continuing. -/
theorem snap_resampling_failure_aborts_run :
    (snap_analysis_data { defaultEnv with alignRasters := fun _ _ _ _ _ _ => none } "ext"
        (initState [model0])).1 = false
    ∧ (snap_analysis_data { defaultEnv with alignRasters := fun _ _ _ _ _ _ => none } "ext"
        (initState [model0])).2.error = some (PyError.unboundLocalError "output_path")
    ∧ (snap_analysis_data { defaultEnv with alignRasters := fun _ _ _ _ _ _ => none } "ext"
        (initState [model0])).2.processing_cancelled = true :=
  ⟨rfl, rfl, rfl⟩

/-- C5 counterexample: a model raster whose band statistics have
`max < min` (here min 5, max 3) does not make `run_models_normalization`
fail — the stage returns `True`, records no error and proceeds to the
calculator — so the `max < min` check does not apply identically in both
applications of the normalization algorithm. -/
theorem models_normalization_accepts_invalid_stats :
    ({ defaultEnv with bandStats := fun _ => (5, 3) } : Env).bandStats "model_b.tif" = (5, 3)
    ∧ (3 : Value) < 5
    ∧ (run_models_normalization { defaultEnv with bandStats := fun _ => (5, 3) } "ext"
        (initState [modelDirect])).1 = true
    ∧ (run_models_normalization { defaultEnv with bandStats := fun _ => (5, 3) } "ext"
        (initState [modelDirect])).2.error = none
    ∧ (run_models_normalization { defaultEnv with bandStats := fun _ => (5, 3) } "ext"
        (initState [modelDirect])).2.processing_cancelled = false :=
  ⟨rfl, by norm_num, rfl, rfl, rfl⟩

/-- C5 (amended): the `max < min` statistics check applies only in pathway
normalization — there the stage raises, records the error and cancels —
while model normalization performs no such validation and, with a
succeeding calculator, completes normally on the same invalid
statistics. -/
theorem normalization_invalid_stats_check_pathways_only :
    (∀ (env : Env) (extent : String) (s : TaskState) (m : ImplementationModel) (p : Pathway)
      (mn mx : Value),
      s.processing_cancelled = false → s.models = [m] → m.pathways = [p] →
      env.bandStats p.path = (mn, mx) → mx < mn →
      run_pathways_normalization env extent s
        = (some false, handle_stage_exception s
            (PyError.exception "Pathway contains invalid minimum and maxmum band values")))
    ∧ (∀ (env : Env) (extent : String) (s : TaskState) (m : ImplementationModel)
      (mn mx : Value) (out : String),
      s.processing_cancelled = false → s.models = [m] → pathIsMissing m.path = false →
      env.bandStats (m.path.getD "") = (mn, mx) → mx < mn →
      (∀ op, env.procRun op = Except.ok out) →
      (run_models_normalization env extent s).1 = true
      ∧ (run_models_normalization env extent s).2.error = s.error
      ∧ (run_models_normalization env extent s).2.processing_cancelled = false) := by
  constructor
  · intro env extent s m p mn mx hc hm hp hstats hlt
    unfold run_pathways_normalization
    rw [hm, collect_pathways_loop_single m p hp]
    simp only [hc, Bool.false_eq_true, if_false, List.isEmpty_cons, Bool.false_and,
      run_pathways_normalization_loop, hstats, if_pos hlt]
  · intro env extent s m mn mx out hc hm hmiss hstats hlt hrun
    have hloop : run_models_normalization env extent s
        = run_models_normalization_loop env extent s [m] := by
      unfold run_models_normalization
      rw [hm]
      simp [hc]
    rw [hloop]
    unfold run_models_normalization_loop
    rw [hmiss]
    simp only [Bool.false_eq_true, if_false, hstats, hc, hrun]
    simp [hc, run_models_normalization_loop, update_model_path, launch]

/-- Witness for C5 at statistics (min 5, max 3). -/
theorem normalization_invalid_stats_check_pathways_only_witness :
    (run_pathways_normalization { defaultEnv with bandStats := fun _ => (5, 3) } "ext"
        (initState [model0])
      = (some false, handle_stage_exception (initState [model0])
          (PyError.exception "Pathway contains invalid minimum and maxmum band values")))
    ∧ ((run_models_normalization { defaultEnv with bandStats := fun _ => (5, 3) } "ext"
        (initState [modelDirect])).1 = true
      ∧ (run_models_normalization { defaultEnv with bandStats := fun _ => (5, 3) } "ext"
          (initState [modelDirect])).2.error = (initState [modelDirect]).error
      ∧ (run_models_normalization { defaultEnv with bandStats := fun _ => (5, 3) } "ext"
          (initState [modelDirect])).2.processing_cancelled = false) :=
  ⟨normalization_invalid_stats_check_pathways_only.1
      { defaultEnv with bandStats := fun _ => (5, 3) } "ext" (initState [model0])
      model0 pw0 5 3 rfl rfl rfl rfl (by norm_num),
   normalization_invalid_stats_check_pathways_only.2
      { defaultEnv with bandStats := fun _ => (5, 3) } "ext" (initState [modelDirect])
      modelDirect 5 3 "out.tif" rfl rfl rfl rfl (by norm_num) (fun _ => rfl)⟩

/-- Accumulator form of `collect_carbon` when every carbon path exists. -/
theorem collect_carbon_go_all_exist (env : Env) :
    ∀ (l : List String) (acc : List String × List String),
      (∀ c ∈ l, env.pathExists c = true) →
      l.foldl
        (fun acc cp =>
          if env.pathExists cp then (acc.1 ++ [cp], acc.2 ++ [env.stem cp]) else acc)
        acc
        = (acc.1 ++ l, acc.2 ++ l.map env.stem)
  | [], acc, _ => by simp
  | c :: l, acc, hex => by
    have hc : env.pathExists c = true := hex c (List.mem_cons_self c l)
    have ih := collect_carbon_go_all_exist env l
      ((acc.1 ++ [c], acc.2 ++ [env.stem c]))
      (fun x hx => hex x (List.mem_cons_of_mem c hx))
    simp only [List.foldl_cons, hc, if_true] at *
    rw [ih]
    simp

/-- When every carbon path exists, `collect_carbon` keeps the full list and
its stems. -/
theorem collect_carbon_all_exist (env : Env) (l : List String)
    (hex : ∀ c ∈ l, env.pathExists c = true) :
    collect_carbon env l = (l, l.map env.stem) := by
  unfold collect_carbon
  rw [collect_carbon_go_all_exist env l ([], []) hex]
  simp

/-- C8: for a pathway with more than one (existing) carbon layer and a
positive carbon coefficient, the combination expression contains the
carbon term `carbon_coefficient * ((sum of the carbon layers) / count)`;
in particular two carbon layers valued 4 and 6 with coefficient 2
contribute exactly `2 * ((4 + 6) / 2) = 10` on top of the base term. -/
theorem pathway_carbon_average_term :
    (∀ (env : Env) (p : Pathway),
      (∀ c ∈ p.carbon_paths, env.pathExists c = true) →
      1 < p.carbon_paths.length → 0 < env.carbon_coefficient →
      Expr.mul (Expr.num env.carbon_coefficient)
        (Expr.div (joinAdd ((p.carbon_paths.map env.stem).map Expr.ref))
          (Expr.num (p.carbon_paths.length : Value)))
        ∈ pathway_basenames env p)
    ∧ (∀ (env : Env) (p : Pathway) (c1 c2 : String) (v : String → Value),
      p.carbon_paths = [c1, c2] →
      env.pathExists c1 = true → env.pathExists c2 = true →
      env.carbon_coefficient = 2 →
      v (env.stem c1) = 4 → v (env.stem c2) = 6 →
      Expr.eval v (joinAdd (pathway_basenames env p))
        = Expr.eval v (base_term env.suitability_index (env.stem p.path)) + 10) := by
  constructor
  · intro env p hex hlen hcoef
    unfold pathway_basenames
    rw [collect_carbon_all_exist env p.carbon_paths hex]
    unfold carbon_terms
    rw [if_neg, if_pos]
    · simp
    · exact ⟨by simpa using hlen, hcoef⟩
    · rintro ⟨h1, -⟩
      rw [List.length_map] at h1
      omega
  · intro env p c1 c2 v hpaths hex1 hex2 hcc h1 h2
    have hex : ∀ c ∈ p.carbon_paths, env.pathExists c = true := by
      rw [hpaths]
      intro c hc
      rcases List.mem_pair.mp hc with rfl | rfl
      · exact hex1
      · exact hex2
    unfold pathway_basenames
    rw [collect_carbon_all_exist env p.carbon_paths hex, hpaths]
    unfold carbon_terms
    rw [if_neg (by simp), if_pos (by simp [hcc])]
    simp only [joinAdd, List.map, List.foldl, Expr.eval, hcc, h1, h2]
    norm_num

/-- Witness for C8: carbon layers `c1`, `c2` valued 4 and 6, coefficient 2. -/
theorem pathway_carbon_average_term_witness :
    Expr.mul (Expr.num 2)
      (Expr.div (joinAdd [Expr.ref "c1", Expr.ref "c2"]) (Expr.num 2))
      ∈ pathway_basenames { defaultEnv with carbon_coefficient := 2 }
          ⟨"p", "pp", ["c1", "c2"]⟩
    ∧ Expr.eval (fun n => if n = "c1" then 4 else if n = "c2" then 6 else 0)
        (joinAdd (pathway_basenames { defaultEnv with carbon_coefficient := 2 }
          ⟨"p", "pp", ["c1", "c2"]⟩))
      = Expr.eval (fun n => if n = "c1" then 4 else if n = "c2" then 6 else 0)
          (base_term 0 "pp") + 10 :=
  ⟨pathway_carbon_average_term.1 { defaultEnv with carbon_coefficient := 2 }
      ⟨"p", "pp", ["c1", "c2"]⟩ (by decide) (by decide) (by norm_num),
   pathway_carbon_average_term.2 { defaultEnv with carbon_coefficient := 2 }
      ⟨"p", "pp", ["c1", "c2"]⟩ "c1" "c2"
      (fun n => if n = "c1" then 4 else if n = "c2" then 6 else 0)
      rfl rfl rfl rfl rfl rfl⟩

/-- C1: when the raster service fails the combination of a pathway, the
pathway-combination stage records the exception as the run's error and
triggers cancellation, after which every later stage returns a falsy
value without launching any further raster operation, and the run
reports `Failed`. -/
theorem pathway_combination_failure_aborts_run (env : Env) (extent : String)
    (s : TaskState) (m : ImplementationModel) (p : Pathway) (c : String) (e : PyError)
    (hc : s.processing_cancelled = false)
    (hm : s.models = [m]) (hpw : m.pathways = [p]) (hcp : p.carbon_paths = [c])
    (hcoef : 0 < env.carbon_coefficient)
    (hrun : ∀ op, env.procRun op = Except.error e) :
    (run_pathways_analysis env extent s).2.error = some e
    ∧ (run_pathways_analysis env extent s).2.processing_cancelled = true
    ∧ (run_pathways_analysis env extent s).2.ops
        = s.ops ++ [RasterOp.rasterCalculator (joinAdd (pathway_basenames env p))
            (p.path :: (collect_carbon env p.carbon_paths).1) extent
            (output_file_for (env.scenario_directory ++ "/pathways_carbon_layers")
              (env.clean_filename p.name))]
    ∧ run_pathways_normalization env extent (run_pathways_analysis env extent s).2
        = (some false, (run_pathways_analysis env extent s).2)
    ∧ run_models_analysis env extent (run_pathways_analysis env extent s).2
        = (false, (run_pathways_analysis env extent s).2)
    ∧ run_models_normalization env extent (run_pathways_analysis env extent s).2
        = (false, (run_pathways_analysis env extent s).2)
    ∧ run_models_weighting env extent (run_pathways_analysis env extent s).2
        = (some (some [], false), (run_pathways_analysis env extent s).2)
    ∧ run_models_cleaning env (some extent) (run_pathways_analysis env extent s).2
        = (false, (run_pathways_analysis env extent s).2)
    ∧ run_highest_position_analysis env (run_pathways_analysis env extent s).2
        = (none, (run_pathways_analysis env extent s).2)
    ∧ report_status (run_pathways_analysis env extent s).2 = RunStatus.Failed := by
  have hnot : ¬(env.carbon_coefficient ≤ 0 ∧ env.suitability_index ≤ 0) :=
    fun h => absurd h.1 (not_le.mpr hcoef)
  have hmain : run_pathways_analysis env extent s
      = (some true, handle_stage_exception
          (launch s (RasterOp.rasterCalculator (joinAdd (pathway_basenames env p))
            (p.path :: (collect_carbon env p.carbon_paths).1) extent
            (output_file_for (env.scenario_directory ++ "/pathways_carbon_layers")
              (env.clean_filename p.name)))) e) := by
    unfold run_pathways_analysis
    rw [hm, collect_pathways_loop_single m p hpw]
    simp only [hc, Bool.false_eq_true, if_false, List.isEmpty_cons, Bool.false_and]
    unfold run_pathways_analysis_loop
    rw [hcp]
    simp only [List.length_cons, List.length_nil, Nat.le_zero, hc, Bool.false_eq_true,
      if_false, if_neg hnot, hrun]
    rw [if_neg (by omega)]
  rw [hmain]
  have hcanc : (handle_stage_exception
      (launch s (RasterOp.rasterCalculator (joinAdd (pathway_basenames env p))
        (p.path :: (collect_carbon env p.carbon_paths).1) extent
        (output_file_for (env.scenario_directory ++ "/pathways_carbon_layers")
          (env.clean_filename p.name)))) e).processing_cancelled = true := rfl
  refine ⟨rfl, rfl, by simp [handle_stage_exception, cancelTask, launch], ?_, ?_, ?_, ?_, ?_, ?_, ?_⟩
  · exact run_pathways_normalization_of_cancelled env extent _ hcanc
  · exact run_models_analysis_of_cancelled env extent _ hcanc
  · exact run_models_normalization_of_cancelled env extent _ hcanc
  · exact run_models_weighting_of_cancelled env extent _ hcanc
  · exact run_models_cleaning_of_cancelled env (some extent) _ hcanc
  · exact run_highest_position_analysis_of_cancelled env _ hcanc
  · rfl

/-- Witness for C1 on a one-model, one-pathway, one-carbon-layer run with a
failing raster service. -/
theorem pathway_combination_failure_aborts_run_witness :
    (run_pathways_analysis envFailingCalc "ext" (initState [modelCarbon])).2.error
      = some (PyError.exception "calc failed")
    ∧ (run_pathways_analysis envFailingCalc "ext" (initState [modelCarbon])).2.processing_cancelled
      = true
    ∧ run_pathways_normalization envFailingCalc "ext"
        (run_pathways_analysis envFailingCalc "ext" (initState [modelCarbon])).2
      = (some false, (run_pathways_analysis envFailingCalc "ext" (initState [modelCarbon])).2)
    ∧ report_status (run_pathways_analysis envFailingCalc "ext" (initState [modelCarbon])).2
      = RunStatus.Failed :=
  have h := pathway_combination_failure_aborts_run envFailingCalc "ext"
    (initState [modelCarbon]) modelCarbon pwCarbon "carbon.tif"
    (PyError.exception "calc failed") rfl rfl rfl rfl (by decide) (fun _ => rfl)
  ⟨h.1, h.2.1, h.2.2.2.1, h.2.2.2.2.2.2.2.2.2⟩

end Cplus
